import Mathlib

/-!
Verification of the color-cascade resolution engine and layout controller of
the capacitor-theme-support plugin.

The plugin exists in several per-platform variants:
* the Android `SystemUI` plugin (`NativeThemePlugin.java`, the Java variant
  with `parseAndStoreColors`, overlay views and inset handling);
* the iOS `SystemUI` plugin (`NativeThemePlugin.swift`, the Swift variant with
  `parseAndStoreColors` and `UIColor.fromHex`);
* the legacy `NativeTheme` plugin (Android `enableEdgeToEdge`/`setAppTheme`).

The color-cascade "store" phase of `parseAndStoreColors` is literally the same
chain of if/else-if assignments in the Java and the Swift variant, only the
color representation differs (ARGB `Integer` vs `UIColor`).  We therefore
embed that phase once, generically in the color type, and instantiate it per
platform.
-/

namespace ThemeSupport

/-- The six optional color slots owned by the controller: fields
`contentBackgroundColor`, `statusBarBackgroundColor`,
`navigationBarBackgroundColor`, `navigationBarLeftBackgroundColor`,
`navigationBarRightBackgroundColor`, `cutoutBackgroundColor` of the plugin
(`null`/`nil` meaning unset). -/
structure ColorSlots (α : Type) where
  content : Option α
  statusBar : Option α
  navigationBar : Option α
  navigationBarLeft : Option α
  navigationBarRight : Option α
  cutout : Option α
deriving Repr, DecidableEq

/-- The initial state: all six color fields are `null`. -/
def emptySlots (α : Type) : ColorSlots α :=
  ⟨none, none, none, none, none, none⟩

/-- All six slots holding the same color. -/
def allSlots {α : Type} (c : α) : ColorSlots α :=
  ⟨some c, some c, some c, some c, some c, some c⟩

/-- One link of an if/else-if chain of `parseAndStoreColors`: use the parsed
value when it is non-`null`, otherwise fall through to the rest of the
chain. -/
def pick {α : Type} (provided fallback : Option α) : Option α :=
  match provided with
  | some c => some c
  | none => fallback

/-- The store phase of `parseAndStoreColors`, identical in the Android plugin
and in the iOS plugin.  Arguments `pContent` … `pCutout` are the values
`parsedContentBg` … `parsedCutoutBg` already produced by the per-platform
parser (`null` when the field was absent or unparseable).  Each slot is
assigned the first non-`null` entry of its if/else-if chain (written here as
nested `pick`s), and keeps its previous value when the whole chain is
`null`:

* content: `parsedContentBg`;
* statusBar: `parsedStatusBarBg`, else `parsedContentBg`;
* navigationBar: `parsedNavBarBg`, else `parsedNavBarLeftBg`, else
  `parsedNavBarRightBg`, else `parsedContentBg`;
* navigationBarLeft: `parsedNavBarLeftBg`, else `parsedNavBarRightBg`, else
  `parsedNavBarBg`, else `parsedContentBg`;
* navigationBarRight: `parsedNavBarRightBg`, else `parsedNavBarLeftBg`, else
  `parsedNavBarBg`, else `parsedContentBg`;
* cutout: `parsedCutoutBg`, else `parsedStatusBarBg`, else `parsedContentBg`.
-/
def storeColors {α : Type} (s : ColorSlots α)
    (pContent pStatusBar pNavBar pNavBarLeft pNavBarRight pCutout : Option α) :
    ColorSlots α where
  content := pick pContent s.content
  statusBar := pick pStatusBar (pick pContent s.statusBar)
  navigationBar :=
    pick pNavBar (pick pNavBarLeft (pick pNavBarRight
      (pick pContent s.navigationBar)))
  navigationBarLeft :=
    pick pNavBarLeft (pick pNavBarRight (pick pNavBar
      (pick pContent s.navigationBarLeft)))
  navigationBarRight :=
    pick pNavBarRight (pick pNavBarLeft (pick pNavBar
      (pick pContent s.navigationBarRight)))
  cutout := pick pCutout (pick pStatusBar (pick pContent s.cutout))

/-! ## iOS color parsing (`UIColor.fromHex` in NativeThemePlugin.swift) -/

/-- Characters of Foundation's `whitespacesAndNewlines` set, restricted to the
ASCII ones (space, tab, line feed, carriage return); the plugin's inputs are
hex color strings, for which this restriction is exact. -/
def isWSChar (c : Char) : Bool :=
  c == ' ' || c == '\t' || c == '\n' || c == '\r'

/-- Case-insensitive hexadecimal digit. -/
def isHexDigitChar (c : Char) : Bool :=
  decide ('0' ≤ c ∧ c ≤ '9') || decide ('a' ≤ c ∧ c ≤ 'f') ||
    decide ('A' ≤ c ∧ c ≤ 'F')

/-- Numeric value of a hexadecimal digit. -/
def hexVal (c : Char) : Nat :=
  if decide ('0' ≤ c ∧ c ≤ '9') then c.toNat - 48
  else if decide ('a' ≤ c ∧ c ≤ 'f') then c.toNat - 87
  else c.toNat - 55

/-- Model of Swift's `String.trimmingCharacters(in: .whitespacesAndNewlines)`:
drop whitespace from both ends. -/
def trimWS (l : List Char) : List Char :=
  ((l.dropWhile isWSChar).reverse.dropWhile isWSChar).reverse

/-- Model of Foundation's `Scanner.scanHexInt64` as used by `UIColor.fromHex`:
skip leading whitespace, allow an optional `0x`/`0X` prefix, then read the
longest run of hexadecimal digits; the scan succeeds iff that run is
non-empty (the rest of the string is ignored), and the value is clamped to
the unsigned 64-bit maximum on overflow. -/
def scanHexInt64 (l : List Char) : Option Nat :=
  let l1 := l.dropWhile isWSChar
  let l2 :=
    if l1.take 2 = ['0', 'x'] ∨ l1.take 2 = ['0', 'X'] then l1.drop 2 else l1
  let ds := l2.takeWhile isHexDigitChar
  if ds.isEmpty then none
  else some (min (ds.foldl (fun a c => a * 16 + hexVal c) 0) (2 ^ 64 - 1))

/-- A `UIColor` produced by `UIColor.fromHex`, represented by its four byte
components (the Swift code divides each by 255.0 to obtain `CGFloat`
components; keeping the exact byte values avoids floating point). -/
structure UIColor where
  red : Nat
  green : Nat
  blue : Nat
  alpha : Nat
deriving Repr, DecidableEq

/-- Embedding of `UIColor.fromHex` (NativeThemePlugin.swift): trim surrounding
whitespace, delete every `#` character, scan a hex integer, then interpret the
sanitized string as RGB when its length is 6 (alpha 255) and as RGBA when its
length is 8; any other length yields `nil`. -/
def UIColor.fromHex (hex : String) : Option UIColor :=
  let hexSanitized := (trimWS hex.toList).filter (fun c => c != '#')
  let length := hexSanitized.length
  match scanHexInt64 hexSanitized with
  | none => none
  | some rgb =>
    if length = 6 then
      some ⟨(rgb &&& 0xFF0000) >>> 16, (rgb &&& 0x00FF00) >>> 8,
        rgb &&& 0x0000FF, 255⟩
    else if length = 8 then
      some ⟨(rgb &&& 0xFF000000) >>> 24, (rgb &&& 0x00FF0000) >>> 16,
        (rgb &&& 0x0000FF00) >>> 8, rgb &&& 0x000000FF⟩
    else none

/-- Specification predicate, written from the claim's words (not from the
source, deliberately): the string has the exact form `#RRGGBB` or `#RRGGBBAA`
with case-insensitive hexadecimal digits. -/
def specHexFormat (s : String) : Bool :=
  match s.toList with
  | c :: rest =>
    c == '#' && (rest.length == 6 || rest.length == 8) &&
      rest.all isHexDigitChar
  | [] => false

/-! ## iOS plugin state (NativeThemePlugin.swift) -/

/-- The `userInterfaceStyle` of a `UITraitCollection`. -/
inductive UIUserInterfaceStyle where
  | unspecified
  | light
  | dark
deriving Repr, DecidableEq

/-- The live iOS appearance signal read by `getSystemColorScheme`:
the trait collection of the bridge's view controller when present, else the
trait collection of the key window when present. -/
structure IOSTraitEnvironment where
  viewControllerStyle : Option UIUserInterfaceStyle
  windowStyle : Option UIUserInterfaceStyle
deriving Repr, DecidableEq

/-- Embedding of the Swift `getSystemColorScheme`: prefer the view
controller's trait collection, fall back to the key window's, default to
"light"; a style compares equal to `.dark` to give "dark". -/
def iosGetSystemColorScheme (t : IOSTraitEnvironment) : String :=
  match t.viewControllerStyle with
  | some style => if style = UIUserInterfaceStyle.dark then "dark" else "light"
  | none =>
    match t.windowStyle with
    | some style =>
      if style = UIUserInterfaceStyle.dark then "dark" else "light"
    | none => "light"

/-- Mutable state of the Swift plugin instance relevant to the claims (the
view-hierarchy and overlay objects it also owns are external UIKit surfaces,
mutated only through platform calls, and carry no decision logic). -/
structure IOSState where
  isEdgeToEdgeEnabled : Bool
  isSafeAreaEnabled : Bool
  isStatusBarVisible : Bool
  isNavigationBarVisible : Bool
  currentColorScheme : String
  isKeyboardVisible : Bool
  colors : ColorSlots UIColor
deriving Repr, DecidableEq

/-- Initial values of the Swift plugin's stored properties. -/
def iosDefaultState : IOSState :=
  ⟨false, true, true, true, "light", false, emptySlots UIColor⟩

/-- Embedding of the Swift `parseAndStoreColors`: each incoming string is
parsed with `UIColor.fromHex` via `flatMap` (so an absent or unparseable
string contributes `nil`), then the cascaded store phase runs. -/
def iosParseAndStoreColors (slots : ColorSlots UIColor)
    (contentBg statusBarBg navigationBarBg navigationBarLeftBg
      navigationBarRightBg cutoutBg : Option String) : ColorSlots UIColor :=
  storeColors slots
    (contentBg.bind UIColor.fromHex)
    (statusBarBg.bind UIColor.fromHex)
    (navigationBarBg.bind UIColor.fromHex)
    (navigationBarLeftBg.bind UIColor.fromHex)
    (navigationBarRightBg.bind UIColor.fromHex)
    (cutoutBg.bind UIColor.fromHex)

/-- The option bag accepted by `configure` (all fields optional). -/
structure SystemUIConfiguration where
  edgeToEdge : Option Bool
  statusBarVisible : Option Bool
  navigationBarVisible : Option Bool
  statusBarStyle : Option String
  navigationBarStyle : Option String
  contentBackgroundColor : Option String
  statusBarBackgroundColor : Option String
  navigationBarBackgroundColor : Option String
  navigationBarLeftBackgroundColor : Option String
  navigationBarRightBackgroundColor : Option String
  cutoutBackgroundColor : Option String
deriving Repr, DecidableEq

/-- Embedding of the Swift `configureEdgeToEdge`: records the flag; the rest
of the Swift body reconfigures the WebView/container hierarchy (external
UIKit surfaces). -/
def iosConfigureEdgeToEdge (s : IOSState) (enabled : Bool) : IOSState :=
  { s with isEdgeToEdgeEnabled := enabled }

/-- Embedding of the Swift `configure`: parse and store colors first, then
handle edge-to-edge if present, apply background colors (external), handle
status-bar visibility if present, apply styles (external), and resolve.  The
only rejection path in the Swift body is the plugin instance having been
deallocated; with the instance alive the call always resolves. -/
def iosConfigure (s : IOSState) (o : SystemUIConfiguration) :
    Except String IOSState :=
  let s1 :=
    { s with
      colors :=
        iosParseAndStoreColors s.colors o.contentBackgroundColor
          o.statusBarBackgroundColor o.navigationBarBackgroundColor
          o.navigationBarLeftBackgroundColor o.navigationBarRightBackgroundColor
          o.cutoutBackgroundColor }
  let s2 :=
    match o.edgeToEdge with
    | some enabled => iosConfigureEdgeToEdge s1 enabled
    | none => s1
  let s3 :=
    match o.statusBarVisible with
    | some visible => { s2 with isStatusBarVisible := visible }
    | none => s2
  Except.ok s3

/-- Embedding of the Swift `setBackgroundColors`: parse and store, apply
(external), resolve. -/
def iosSetBackgroundColors (s : IOSState)
    (contentBg statusBarBg navigationBarBg navigationBarLeftBg
      navigationBarRightBg cutoutBg : Option String) :
    Except String IOSState :=
  Except.ok
    { s with
      colors :=
        iosParseAndStoreColors s.colors contentBg statusBarBg navigationBarBg
          navigationBarLeftBg navigationBarRightBg cutoutBg }

/-- Embedding of the Swift `getColorScheme`: re-read the scheme from the live
trait environment, cache it, and return it. -/
def iosGetColorScheme (s : IOSState) (t : IOSTraitEnvironment) :
    String × IOSState :=
  let colorScheme := iosGetSystemColorScheme t
  (colorScheme, { s with currentColorScheme := colorScheme })

/-- Embedding of the Swift `handleAppBecameActive`: compare the freshly read
scheme to the cache; when different, update the cache and emit one
`colorSchemeChanged` event (the returned Boolean). -/
def iosHandleAppBecameActive (s : IOSState) (t : IOSTraitEnvironment) :
    IOSState × Bool :=
  let newScheme := iosGetSystemColorScheme t
  if newScheme ≠ s.currentColorScheme then
    ({ s with currentColorScheme := newScheme }, true)
  else
    (s, false)

/-! ## Android plugin state (SystemUI variant, NativeThemePlugin.java) -/

/-- The night-mode bits of `Configuration.uiMode`. -/
inductive NightMode where
  | yes
  | no
  | undefined
deriving Repr, DecidableEq

/-- The live Android appearance signal: the resources configuration read by
`getSystemColorScheme`. -/
structure AndroidConfiguration where
  nightMode : NightMode
deriving Repr, DecidableEq

/-- Embedding of the Java `getSystemColorScheme`: `UI_MODE_NIGHT_YES` gives
"dark", `UI_MODE_NIGHT_NO` and every other value give "light". -/
def androidGetSystemColorScheme (cfg : AndroidConfiguration) : String :=
  match cfg.nightMode with
  | NightMode.yes => "dark"
  | NightMode.no => "light"
  | NightMode.undefined => "light"

/-- Mutable fields of the Java plugin instance relevant to the claims
(overlay `View` objects are external Android surfaces without decision
logic).  Inset fields are the pixel values stored by the insets listener. -/
structure AndroidState where
  isEdgeToEdgeEnabled : Bool
  isSafeAreaEnabled : Bool
  isStatusBarVisible : Bool
  isNavigationBarVisible : Bool
  currentColorScheme : String
  statusBarHeight : Int
  navigationBarHeight : Int
  leftInset : Int
  rightInset : Int
  cutoutTop : Int
  cutoutLeft : Int
  cutoutRight : Int
  colors : ColorSlots Nat
deriving Repr, DecidableEq

/-- Initial values of the Java plugin's fields. -/
def androidDefaultState : AndroidState :=
  ⟨false, true, true, true, "light", 0, 0, 0, 0, 0, 0, 0, emptySlots Nat⟩

/-- Embedding of the Java `isValidColor`: the string is non-`null` and
non-empty.  This is the only validation the Java plugin performs before
handing the string to `Color.parseColor`. -/
def isValidColor (color : Option String) : Bool :=
  match color with
  | some c => !c.isEmpty
  | none => false

/-- Model of Java's `String.toLowerCase(Locale.ROOT)` as applied to color
names: lower each character (the table keys are ASCII, for which this is
exact). -/
def toLowerCaseROOT (s : String) : String :=
  String.mk (s.toList.map Char.toLower)

/-- The named-color table `sColorNameMap` of `android.graphics.Color`. -/
def sColorNameMap (name : String) : Option Nat :=
  [("black", 0xFF000000), ("darkgray", 0xFF444444), ("gray", 0xFF888888),
   ("lightgray", 0xFFCCCCCC), ("white", 0xFFFFFFFF), ("red", 0xFFFF0000),
   ("green", 0xFF00FF00), ("blue", 0xFF0000FF), ("yellow", 0xFFFFFF00),
   ("cyan", 0xFF00FFFF), ("magenta", 0xFFFF00FF), ("aqua", 0xFF00FFFF),
   ("fuchsia", 0xFFFF00FF), ("darkgrey", 0xFF444444), ("grey", 0xFF888888),
   ("lightgrey", 0xFFCCCCCC), ("lime", 0xFF00FF00), ("maroon", 0xFF800000),
   ("navy", 0xFF000080), ("olive", 0xFF808000), ("purple", 0xFF800080),
   ("silver", 0xFFC0C0C0), ("teal", 0xFF008080)].lookup name

/-- Model of Java's `Long.parseLong(s, 16)` on the characters after the
`#`: an optional single sign character followed by at least one hex digit,
yielding the 64-bit two's-complement bit pattern as a `Nat` below `2 ^ 64`
(negative values wrap; the real method instead throws on overflow, but at
the string lengths `parseColor` subsequently accepts — at most eight digits
— overflow cannot occur, so the distinction is unobservable).  `none` models
`NumberFormatException`. -/
def parseLongHex16 (l : List Char) : Option Nat :=
  match l with
  | '-' :: ds =>
    if ds ≠ [] ∧ ds.all isHexDigitChar then
      some ((2 ^ 64 - ds.foldl (fun a c => a * 16 + hexVal c) 0 % 2 ^ 64) %
        2 ^ 64)
    else none
  | '+' :: ds =>
    if ds ≠ [] ∧ ds.all isHexDigitChar then
      some (ds.foldl (fun a c => a * 16 + hexVal c) 0 % 2 ^ 64)
    else none
  | ds =>
    if ds ≠ [] ∧ ds.all isHexDigitChar then
      some (ds.foldl (fun a c => a * 16 + hexVal c) 0 % 2 ^ 64)
    else none

/-- Model of `android.graphics.Color.parseColor` (the external Android API
the Java plugin delegates to); `none` models the exception the real method
throws.  A string starting with `#` is parsed as a hex long; a 7-character
string gets alpha `0xFF` or-ed in, a 9-character string is taken as
`AARRGGBB`, any other length throws.  Without `#`, the lowercased string is
looked up in the named-color table.  The returned Java `int` is represented
by its unsigned 32-bit pattern (the final `% 2 ^ 32` is the `(int)` cast). -/
def androidParseColor (colorString : String) : Option Nat :=
  match colorString.toList with
  | '#' :: rest =>
    match parseLongHex16 rest with
    | none => none
    | some color =>
      if colorString.length = 7 then some ((color ||| 0xFF000000) % 2 ^ 32)
      else if colorString.length = 9 then some (color % 2 ^ 32)
      else none
  | _ => sColorNameMap (toLowerCaseROOT colorString)

/-- One ternary `isValidColor(x) ? Color.parseColor(x) : null` of the Java
`parseAndStoreColors`: an absent or empty string contributes `null`; a
non-empty string that `Color.parseColor` cannot parse throws (modelled as
`Except.error`). -/
def androidParseField (color : Option String) : Except String (Option Nat) :=
  if isValidColor color then
    match color with
    | some c =>
      match androidParseColor c with
      | some parsed => Except.ok (some parsed)
      | none => Except.error "Unknown color"
    | none => Except.ok none
  else
    Except.ok none

/-- The supplied color string makes the Java parse throw: it is present,
non-empty, and not parseable by `Color.parseColor`. -/
def androidColorMalformed (color : Option String) : Bool :=
  match androidParseField color with
  | Except.error _ => true
  | Except.ok _ => false

/-- Embedding of the Java `parseAndStoreColors`: all six ternaries run first,
in argument order, so the first unparseable non-empty string throws before
any field is assigned; when all six parses succeed the cascaded store phase
runs.  The thrown exception propagates to the caller as `Except.error`. -/
def androidParseAndStoreColors (s : AndroidState)
    (contentBg statusBarBg navigationBarBg navigationBarLeftBg
      navigationBarRightBg cutoutBg : Option String) :
    Except String AndroidState := do
  let parsedContentBg ← androidParseField contentBg
  let parsedStatusBarBg ← androidParseField statusBarBg
  let parsedNavBarBg ← androidParseField navigationBarBg
  let parsedNavBarLeftBg ← androidParseField navigationBarLeftBg
  let parsedNavBarRightBg ← androidParseField navigationBarRightBg
  let parsedCutoutBg ← androidParseField cutoutBg
  Except.ok
    { s with
      colors := storeColors s.colors parsedContentBg parsedStatusBarBg
        parsedNavBarBg parsedNavBarLeftBg parsedNavBarRightBg parsedCutoutBg }

/-- Embedding of the Java `configureEdgeToEdge`: the flag is recorded first;
the enable branch installs overlays and the insets listener and clears the
bar colors (external window calls); the disable branch additionally resets
`isSafeAreaEnabled` to `true` before tearing the overlays down and applying
the standard bar colors (external). -/
def androidConfigureEdgeToEdge (s : AndroidState) (enabled : Bool) :
    AndroidState :=
  let s1 := { s with isEdgeToEdgeEnabled := enabled }
  if enabled then s1 else { s1 with isSafeAreaEnabled := true }

/-- Embedding of the Java `configure`: inside one try/catch it (1) runs the
edge-to-edge transition when `edgeToEdge` is present, (2) parses and stores
colors — the step that can throw —, (3) applies background colors
(external), (4) sets the two visibility flags when present (the window calls
are external), (5) applies styles (external), then resolves.  The returned
pair is the plugin state as mutated so far and `none` on resolve or the
rejection message on reject: mutations made before a throw persist, which is
why a rejected call can still have flipped the edge-to-edge flag. -/
def androidConfigure (s : AndroidState) (o : SystemUIConfiguration) :
    AndroidState × Option String :=
  let s1 :=
    match o.edgeToEdge with
    | some enabled => androidConfigureEdgeToEdge s enabled
    | none => s
  match androidParseAndStoreColors s1 o.contentBackgroundColor
      o.statusBarBackgroundColor o.navigationBarBackgroundColor
      o.navigationBarLeftBackgroundColor o.navigationBarRightBackgroundColor
      o.cutoutBackgroundColor with
  | Except.error msg => (s1, some ("Configuration failed: " ++ msg))
  | Except.ok s2 =>
    let s3 :=
      match o.statusBarVisible with
      | some visible => { s2 with isStatusBarVisible := visible }
      | none => s2
    let s4 :=
      match o.navigationBarVisible with
      | some visible => { s3 with isNavigationBarVisible := visible }
      | none => s3
    (s4, none)

/-- Embedding of the Java `getColorScheme` plugin method: it resolves with
the cached `currentColorScheme` field and touches nothing else (in
particular it performs no fresh read of the resources configuration). -/
def androidGetColorScheme (s : AndroidState) : String × AndroidState :=
  (s.currentColorScheme, s)

/-- Embedding of the Java `handleOnConfigurationChanged`: read the scheme
from the incoming configuration; when it differs from the cache, update the
cache and emit one `colorSchemeChanged` event (the returned Boolean). -/
def androidHandleOnConfigurationChanged (s : AndroidState)
    (newConfig : AndroidConfiguration) : AndroidState × Bool :=
  let newColorScheme := androidGetSystemColorScheme newConfig
  if newColorScheme ≠ s.currentColorScheme then
    ({ s with currentColorScheme := newColorScheme }, true)
  else
    (s, false)

/-- One window-insets callback payload: the insets of
`systemBars() | displayCutout()`, the display-cutout insets, and the IME
(keyboard) inset and visibility, as delivered by the platform. -/
structure WindowInsetsSnapshot where
  systemBarsLeft : Int
  systemBarsTop : Int
  systemBarsRight : Int
  systemBarsBottom : Int
  displayCutoutTop : Int
  displayCutoutLeft : Int
  displayCutoutRight : Int
  imeBottom : Int
  imeVisible : Bool
deriving Repr, DecidableEq

/-- Embedding of the store step of the insets listener installed by
`setupInsetsListener` in the Java SystemUI plugin: it records the
`systemBars() | displayCutout()` insets and the cutout insets, and reads
nothing about the IME. -/
def androidOnApplyWindowInsets (s : AndroidState)
    (insets : WindowInsetsSnapshot) : AndroidState :=
  { s with
    statusBarHeight := insets.systemBarsTop
    navigationBarHeight := insets.systemBarsBottom
    leftInset := insets.systemBarsLeft
    rightInset := insets.systemBarsRight
    cutoutTop := insets.displayCutoutTop
    cutoutLeft := insets.displayCutoutLeft
    cutoutRight := insets.displayCutoutRight }

/-- A content-view padding quadruple. -/
structure Padding where
  left : Int
  top : Int
  right : Int
  bottom : Int
deriving Repr, DecidableEq

/-- Embedding of the Java `updateContentPadding` in the SystemUI plugin: with
safe area enabled the content is padded by the stored insets, otherwise by
zero; the keyboard is never consulted. -/
def androidUpdateContentPadding (s : AndroidState) : Padding :=
  if s.isSafeAreaEnabled then
    ⟨s.leftInset, s.statusBarHeight, s.rightInset, s.navigationBarHeight⟩
  else
    ⟨0, 0, 0, 0⟩

/-! ## Legacy NativeTheme plugin (Android `enableEdgeToEdge`) -/

/-- Embedding of the insets listener installed by the legacy NativeTheme
`enableEdgeToEdge`: the root content view is padded by the system-bar insets
on the left, top and right, and on the bottom by the IME inset while the IME
is visible, else by the system-bar bottom inset. -/
def nativeThemeInsetPadding (insets : WindowInsetsSnapshot) : Padding :=
  ⟨insets.systemBarsLeft, insets.systemBarsTop, insets.systemBarsRight,
    if insets.imeVisible then insets.imeBottom else insets.systemBarsBottom⟩

/-- A single slot of the store phase evolves monotonically: the new value is
the old one or one of the six parsed inputs of the call, and a set slot never
becomes unset. -/
def slotMono {α : Type} (old new : Option α) (ps : List (Option α)) : Prop :=
  (new = old ∨ (new.isSome = true ∧ new ∈ ps)) ∧
    (old.isSome = true → new.isSome = true)

/-- All six slots of a store-phase call evolve monotonically (see
`slotMono`). -/
def slotsMono {α : Type} (s sNew : ColorSlots α) (ps : List (Option α)) :
    Prop :=
  slotMono s.content sNew.content ps ∧
  slotMono s.statusBar sNew.statusBar ps ∧
  slotMono s.navigationBar sNew.navigationBar ps ∧
  slotMono s.navigationBarLeft sNew.navigationBarLeft ps ∧
  slotMono s.navigationBarRight sNew.navigationBarRight ps ∧
  slotMono s.cutout sNew.cutout ps

/-- Deduplication contract of a theme-change handler: starting from cache
`cached` and freshly read scheme `fresh`, the handler leaves the cache at
`after1` and emits `e1`; a second delivery of the same fresh scheme emits
`e2`.  The contract: the second delivery emits nothing, an event is emitted
iff the fresh scheme differs from the cache, and an emission updates the
cache to the fresh scheme. -/
def dedupOk (cached fresh after1 : String) (e1 e2 : Bool) : Prop :=
  e2 = false ∧ (e1 = true ↔ fresh ≠ cached) ∧ (e1 = true → after1 = fresh)

theorem slotMono_refl {α : Type} (old : Option α) (ps : List (Option α)) :
    slotMono old old ps :=
  ⟨Or.inl rfl, fun h => h⟩

/-- Prepending one parsed candidate to an if/else-if chain preserves
`slotMono`. -/
theorem slotMono_step {α : Type} {old new : Option α} {ps : List (Option α)}
    (p : Option α) (hp : p ∈ ps) (h : slotMono old new ps) :
    slotMono old (pick p new) ps := by
  cases p with
  | none => exact h
  | some c => exact ⟨Or.inr ⟨rfl, hp⟩, fun _ => rfl⟩

/-- A call of the store phase with no parsed colors leaves every slot
untouched. -/
theorem storeColors_all_none {α : Type} (s : ColorSlots α) :
    storeColors s none none none none none none = s := rfl

theorem dropWhile_eq_self_of {p : Char → Bool} {l : List Char}
    (h : ∀ c ∈ l, p c = false) : l.dropWhile p = l := by
  cases l with
  | nil => rfl
  | cons a as => simp [List.dropWhile_cons, h a (by simp)]

theorem takeWhile_eq_self_of {p : Char → Bool} {l : List Char}
    (h : ∀ c ∈ l, p c = true) : l.takeWhile p = l := by
  induction l with
  | nil => rfl
  | cons a as ih =>
    have ha := h a (by simp)
    have hrest : List.takeWhile p as = as := ih (fun c hc => h c (by simp [hc]))
    simp [List.takeWhile_cons, ha, hrest]

theorem trimWS_eq_self {l : List Char}
    (h : ∀ c ∈ l, isWSChar c = false) : trimWS l = l := by
  unfold trimWS
  rw [dropWhile_eq_self_of h, dropWhile_eq_self_of, List.reverse_reverse]
  intro c hc
  exact h c (List.mem_reverse.mp hc)

theorem hex_not_ws {c : Char} (h : isHexDigitChar c = true) :
    isWSChar c = false := by
  by_contra hws
  rw [Bool.not_eq_false] at hws
  simp only [isWSChar, Bool.or_eq_true, beq_iff_eq] at hws
  rcases hws with ((h1 | h1) | h1) | h1 <;> subst h1 <;>
    exact absurd h (by decide)

theorem hex_ne_hash {c : Char} (h : isHexDigitChar c = true) :
    (c != '#') = true := by
  simp only [bne_iff_ne, ne_eq]
  intro hc
  subst hc
  exact absurd h (by decide)

/-- The hex scan succeeds on any non-empty string of hexadecimal digits. -/
theorem scanHexInt64_isSome {l : List Char} (hne : l ≠ [])
    (h : ∀ c ∈ l, isHexDigitChar c = true) :
    (scanHexInt64 l).isSome = true := by
  have h1 : l.dropWhile isWSChar = l :=
    dropWhile_eq_self_of (fun c hc => hex_not_ws (h c hc))
  have h2 : ¬(l.take 2 = ['0', 'x'] ∨ l.take 2 = ['0', 'X']) := by
    rintro (h2 | h2)
    · exact absurd (h 'x' (List.take_subset 2 l (by rw [h2]; simp))) (by decide)
    · exact absurd (h 'X' (List.take_subset 2 l (by rw [h2]; simp))) (by decide)
  have h3 : l.takeWhile isHexDigitChar = l := takeWhile_eq_self_of h
  simp only [scanHexInt64, h1, if_neg h2, h3]
  rw [if_neg]
  · rfl
  · simp [List.isEmpty_iff, hne]

/-- When any of the six ternaries of the Java `parseAndStoreColors` throws,
the whole call throws (the parses run before any store, so no field is
assigned). -/
theorem androidParse_error_of_any (s : AndroidState)
    (c1 c2 c3 c4 c5 c6 : Option String)
    (h : androidColorMalformed c1 = true ∨ androidColorMalformed c2 = true ∨
      androidColorMalformed c3 = true ∨ androidColorMalformed c4 = true ∨
      androidColorMalformed c5 = true ∨ androidColorMalformed c6 = true) :
    ∃ m, androidParseAndStoreColors s c1 c2 c3 c4 c5 c6 = Except.error m := by
  unfold androidParseAndStoreColors
  cases h1 : androidParseField c1 with
  | error m => exact ⟨m, by simp [bind, Except.bind, h1]⟩
  | ok v1 =>
  cases h2 : androidParseField c2 with
  | error m => exact ⟨m, by simp [bind, Except.bind, h1, h2]⟩
  | ok v2 =>
  cases h3 : androidParseField c3 with
  | error m => exact ⟨m, by simp [bind, Except.bind, h1, h2, h3]⟩
  | ok v3 =>
  cases h4 : androidParseField c4 with
  | error m => exact ⟨m, by simp [bind, Except.bind, h1, h2, h3, h4]⟩
  | ok v4 =>
  cases h5 : androidParseField c5 with
  | error m => exact ⟨m, by simp [bind, Except.bind, h1, h2, h3, h4, h5]⟩
  | ok v5 =>
  cases h6 : androidParseField c6 with
  | error m => exact ⟨m, by simp [bind, Except.bind, h1, h2, h3, h4, h5, h6]⟩
  | ok v6 =>
  exfalso
  rcases h with h | h | h | h | h | h <;>
    simp [androidColorMalformed, h1, h2, h3, h4, h5, h6] at h

/-! ## Claim theorems -/

/-- Claim C1, counterexample.  The claim asserts that after a configure call
supplying contentBackgroundColor `#000000` and statusBarBackgroundColor
`#222222`, followed by a configure call supplying only
contentBackgroundColor `#ffffff`, the resolved statusBar color is still
`#222222`.  Running the two color-store
calls of the iOS plugin shows the first call does set statusBar to `#222222`,
but the second call overwrites it with the new content color `#ffffff`:
prior explicit assignments are not sticky. -/
theorem c1_counterexample :
    (let s1 := iosParseAndStoreColors (emptySlots UIColor) (some "#000000")
      (some "#222222") none none none none
     let s2 := iosParseAndStoreColors s1 (some "#ffffff") none none none
       none none
     s1.statusBar = UIColor.fromHex "#222222" ∧
     s2.statusBar = some ⟨255, 255, 255, 255⟩ ∧
     s2.statusBar ≠ UIColor.fromHex "#222222" ∧
     s2.navigationBar = some ⟨255, 255, 255, 255⟩) := by decide

/-- Claim C1, amended.  A call that supplies a content color and does not
re-supply the other slots floods all six slots with that content color,
regardless of any explicit value a slot received in a prior call: in the
claim's scenario both statusBar and navigationBar resolve to `#ffffff`. -/
theorem c1_amended {α : Type} (s : ColorSlots α) (c : α) :
    storeColors s (some c) none none none none none = allSlots c := rfl

/-- Claim C2, counterexample.  The claim asserts that every `configure` call
containing a malformed color string rejects with no state change.  Both
halves fail on the code: the iOS plugin resolves (returns `ok`) on a
configure call supplying contentBackgroundColor `notacolor`, silently
skipping the unparseable color; and the Android plugin, given the same
malformed color together with edgeToEdge, does reject but has already
flipped the edge-to-edge flag from its initial `false` to `true`. -/
theorem c2_counterexample :
    iosConfigure iosDefaultState
      ⟨none, none, none, none, none, some "notacolor", none, none, none,
        none, none⟩ = Except.ok iosDefaultState ∧
    (let r := androidConfigure androidDefaultState
      ⟨some true, none, none, none, none, some "notacolor", none, none,
        none, none, none⟩
     r.2.isSome = true ∧ r.1.isEdgeToEdgeEnabled = true ∧
       androidDefaultState.isEdgeToEdgeEnabled = false) :=
  ⟨rfl, by decide⟩

/-- Claim C2, amended.  A `configure` (or `setBackgroundColors`) call
containing malformed color strings never partially applies color fields, but
the two platforms diverge from the claim differently.  On iOS the call does
not reject: it resolves, leaves all six stored colors unchanged (when every
supplied color is malformed), and still applies its non-color fields —
edge-to-edge and status-bar visibility.  On Android a call with at least one
non-empty color string that `Color.parseColor` cannot parse does reject, and
stored colors and both visibility flags are unchanged — but the edge-to-edge
transition, which `configure` runs before parsing colors, has already been
applied by the time of the rejection.  (Strings such as named colors or
`#AARRGGBB`, malformed per the spec but parseable by `Color.parseColor`, do
not reject on Android.) -/
theorem c2_amended (s : IOSState) (o : SystemUIConfiguration)
    (sa : AndroidState) (oa : SystemUIConfiguration)
    (h1 : o.contentBackgroundColor.bind UIColor.fromHex = none)
    (h2 : o.statusBarBackgroundColor.bind UIColor.fromHex = none)
    (h3 : o.navigationBarBackgroundColor.bind UIColor.fromHex = none)
    (h4 : o.navigationBarLeftBackgroundColor.bind UIColor.fromHex = none)
    (h5 : o.navigationBarRightBackgroundColor.bind UIColor.fromHex = none)
    (h6 : o.cutoutBackgroundColor.bind UIColor.fromHex = none)
    (h7 : androidColorMalformed oa.contentBackgroundColor = true ∨
      androidColorMalformed oa.statusBarBackgroundColor = true ∨
      androidColorMalformed oa.navigationBarBackgroundColor = true ∨
      androidColorMalformed oa.navigationBarLeftBackgroundColor = true ∨
      androidColorMalformed oa.navigationBarRightBackgroundColor = true ∨
      androidColorMalformed oa.cutoutBackgroundColor = true) :
    iosConfigure s o = Except.ok
      { s with
        isEdgeToEdgeEnabled := o.edgeToEdge.getD s.isEdgeToEdgeEnabled
        isStatusBarVisible := o.statusBarVisible.getD s.isStatusBarVisible } ∧
    iosSetBackgroundColors s o.contentBackgroundColor
      o.statusBarBackgroundColor o.navigationBarBackgroundColor
      o.navigationBarLeftBackgroundColor o.navigationBarRightBackgroundColor
      o.cutoutBackgroundColor = Except.ok s ∧
    (∃ msg, androidConfigure sa oa =
      ((match oa.edgeToEdge with
        | some enabled => androidConfigureEdgeToEdge sa enabled
        | none => sa), some msg)) ∧
    (androidConfigure sa oa).1.colors = sa.colors ∧
    (androidConfigure sa oa).1.isStatusBarVisible = sa.isStatusBarVisible ∧
    (androidConfigure sa oa).1.isNavigationBarVisible =
      sa.isNavigationBarVisible := by
  have hcolors :
      iosParseAndStoreColors s.colors o.contentBackgroundColor
        o.statusBarBackgroundColor o.navigationBarBackgroundColor
        o.navigationBarLeftBackgroundColor o.navigationBarRightBackgroundColor
        o.cutoutBackgroundColor = s.colors := by
    unfold iosParseAndStoreColors
    rw [h1, h2, h3, h4, h5, h6]
    exact storeColors_all_none _
  obtain ⟨m, hm⟩ := androidParse_error_of_any
    (match oa.edgeToEdge with
     | some enabled => androidConfigureEdgeToEdge sa enabled
     | none => sa)
    oa.contentBackgroundColor oa.statusBarBackgroundColor
    oa.navigationBarBackgroundColor oa.navigationBarLeftBackgroundColor
    oa.navigationBarRightBackgroundColor oa.cutoutBackgroundColor h7
  have hrun : androidConfigure sa oa =
      ((match oa.edgeToEdge with
        | some enabled => androidConfigureEdgeToEdge sa enabled
        | none => sa), some ("Configuration failed: " ++ m)) := by
    simp only [androidConfigure, hm]
  have hflags : ∀ e : Bool,
      (androidConfigureEdgeToEdge sa e).colors = sa.colors ∧
      (androidConfigureEdgeToEdge sa e).isStatusBarVisible =
        sa.isStatusBarVisible ∧
      (androidConfigureEdgeToEdge sa e).isNavigationBarVisible =
        sa.isNavigationBarVisible := by
    intro e
    cases e <;> simp [androidConfigureEdgeToEdge]
  refine ⟨?_, ?_, ⟨_, hrun⟩, ?_, ?_, ?_⟩
  · cases he : o.edgeToEdge <;> cases hv : o.statusBarVisible <;>
      simp [iosConfigure, iosConfigureEdgeToEdge, hcolors, he, hv]
  · unfold iosSetBackgroundColors
    rw [hcolors]
  all_goals rw [hrun]
  all_goals cases he : oa.edgeToEdge
  all_goals simp [hflags]

/-- Claim C2, witness for the amended theorem: the same malformed color on
both platforms, alongside non-color fields; iOS resolves with the colors
intact and edge-to-edge plus status-bar visibility applied, Android rejects
with only the edge-to-edge flag changed. -/
theorem c2_amended_witness :
    ((some "notacolor").bind UIColor.fromHex = none) ∧
    androidColorMalformed (some "notacolor") = true ∧
    (iosConfigure { iosDefaultState with colors := allSlots ⟨17, 17, 17, 255⟩ }
        ⟨some true, some false, none, some "light", none, some "notacolor",
          none, none, none, none, none⟩ =
      Except.ok
        { iosDefaultState with
          colors := allSlots ⟨17, 17, 17, 255⟩
          isEdgeToEdgeEnabled := true
          isStatusBarVisible := false } ∧
     iosSetBackgroundColors
        { iosDefaultState with colors := allSlots ⟨17, 17, 17, 255⟩ }
        (some "notacolor") none none none none none =
      Except.ok { iosDefaultState with colors := allSlots ⟨17, 17, 17, 255⟩ } ∧
     (∃ msg, androidConfigure androidDefaultState
        ⟨some true, some false, none, none, none, some "notacolor", none,
          none, none, none, none⟩ =
        ({ androidDefaultState with isEdgeToEdgeEnabled := true },
          some msg)) ∧
     (androidConfigure androidDefaultState
        ⟨some true, some false, none, none, none, some "notacolor", none,
          none, none, none, none⟩).1.colors = androidDefaultState.colors ∧
     (androidConfigure androidDefaultState
        ⟨some true, some false, none, none, none, some "notacolor", none,
          none, none, none, none⟩).1.isStatusBarVisible =
       androidDefaultState.isStatusBarVisible ∧
     (androidConfigure androidDefaultState
        ⟨some true, some false, none, none, none, some "notacolor", none,
          none, none, none, none⟩).1.isNavigationBarVisible =
       androidDefaultState.isNavigationBarVisible) :=
  ⟨by decide, by decide,
    c2_amended { iosDefaultState with colors := allSlots ⟨17, 17, 17, 255⟩ }
      ⟨some true, some false, none, some "light", none, some "notacolor",
        none, none, none, none, none⟩
      androidDefaultState
      ⟨some true, some false, none, none, none, some "notacolor", none,
        none, none, none, none⟩
      (by decide) (by decide) (by decide) (by decide) (by decide) (by decide)
      (Or.inl (by decide))⟩

/-- Claim C3, counterexample.  The claim asserts a color string is accepted
only if it has the form `#RRGGBB` or `#RRGGBBAA`.  The string `"112233"` has
no leading `#`, so the claim calls it a validation failure, yet
`UIColor.fromHex` accepts it. -/
theorem c3_counterexample :
    specHexFormat "112233" = false ∧
    (UIColor.fromHex "112233").isSome = true := by decide

/-- Claim C3, amended.  Every string of the exact form `#RRGGBB` or
`#RRGGBBAA` (case-insensitive hex) is accepted by `UIColor.fromHex`, but the
accepted set is strictly larger (see the counterexample): only the forward
direction of the claimed equivalence holds. -/
theorem c3_amended (s : String) (h : specHexFormat s = true) :
    (UIColor.fromHex s).isSome = true := by
  unfold specHexFormat at h
  cases hl : s.toList with
  | nil => rw [hl] at h; exact absurd h (by decide)
  | cons hd rest =>
    rw [hl] at h
    simp only [Bool.and_eq_true, Bool.or_eq_true, beq_iff_eq,
      List.all_eq_true] at h
    obtain ⟨⟨hhash, hlen⟩, hhex⟩ := h
    subst hhash
    have hnws : ∀ c ∈ '#' :: rest, isWSChar c = false := by
      intro c hc
      rcases List.mem_cons.mp hc with hc | hc
      · subst hc; decide
      · exact hex_not_ws (hhex c hc)
    have hfilter : ('#' :: rest).filter (fun c => c != '#') = rest := by
      simp only [List.filter_cons, bne_self_eq_false, Bool.false_eq_true,
        if_false]
      exact List.filter_eq_self.mpr (fun c hc => hex_ne_hash (hhex c hc))
    have hne : rest ≠ [] := by
      rcases hlen with hlen | hlen <;> intro hemp <;> rw [hemp] at hlen <;>
        simp at hlen
    unfold UIColor.fromHex
    rw [hl, trimWS_eq_self hnws, hfilter]
    have hscan := scanHexInt64_isSome hne hhex
    cases hrgb : scanHexInt64 rest with
    | none => rw [hrgb] at hscan; exact absurd hscan (by decide)
    | some rgb =>
      rcases hlen with hlen | hlen <;> simp [hrgb, hlen]

/-- Claim C3, witness for the amended theorem at a concrete well-formed
string. -/
theorem c3_amended_witness :
    specHexFormat "#A1b2C3" = true ∧
    (UIColor.fromHex "#A1b2C3").isSome = true :=
  ⟨by decide, c3_amended "#A1b2C3" (by decide)⟩

/-- Claim C4, counterexample.  The claim asserts that in the SystemUI plugin
(edge-to-edge and safe-area enabled) the content's bottom padding equals the
keyboard height while the keyboard is visible.  Delivering an insets snapshot
with a visible keyboard of height 100 and a bottom system-bar inset of 48,
the plugin's `updateContentPadding` pads the bottom with 48, not 100: the
SystemUI plugin never consults the keyboard. -/
theorem c4_counterexample :
    (let s := androidOnApplyWindowInsets
      { androidDefaultState with isEdgeToEdgeEnabled := true }
      ⟨0, 24, 0, 48, 0, 0, 0, 100, true⟩
     s.isEdgeToEdgeEnabled = true ∧ s.isSafeAreaEnabled = true ∧
       androidUpdateContentPadding s = ⟨0, 24, 0, 48⟩ ∧
       (48 : Int) ≠ 100) := by decide

/-- Claim C4, amended.  The keyboard override — bottom padding equals the
keyboard height while the keyboard is visible and reverts to the system-bar
bottom inset when it hides, with left, top and right staying at the
system-bar insets — holds of the inset listener installed by the legacy
NativeTheme `enableEdgeToEdge`, not of the SystemUI plugin's
`updateContentPadding`. -/
theorem c4_amended (insets : WindowInsetsSnapshot)
    (h : insets.imeVisible = true) :
    nativeThemeInsetPadding insets =
      ⟨insets.systemBarsLeft, insets.systemBarsTop, insets.systemBarsRight,
        insets.imeBottom⟩ ∧
    nativeThemeInsetPadding { insets with imeVisible := false } =
      ⟨insets.systemBarsLeft, insets.systemBarsTop, insets.systemBarsRight,
        insets.systemBarsBottom⟩ := by
  simp [nativeThemeInsetPadding, h]

/-- Claim C4, witness for the amended theorem at a concrete snapshot. -/
theorem c4_amended_witness :
    (⟨0, 24, 0, 48, 0, 0, 0, 100, true⟩ :
      WindowInsetsSnapshot).imeVisible = true ∧
    (nativeThemeInsetPadding ⟨0, 24, 0, 48, 0, 0, 0, 100, true⟩ =
        ⟨0, 24, 0, 100⟩ ∧
      nativeThemeInsetPadding ⟨0, 24, 0, 48, 0, 0, 0, 100, false⟩ =
        ⟨0, 24, 0, 48⟩) :=
  ⟨rfl, c4_amended ⟨0, 24, 0, 48, 0, 0, 0, 100, true⟩ rfl⟩

/-- Claim C5, counterexample.  The claim asserts every `getColorScheme` call
re-derives the scheme from the live OS signal.  On the Android plugin, with
the cache holding "light" while the live configuration reports night mode
(so a fresh read would give "dark"), `getColorScheme` returns the cached
"light" and leaves the state untouched. -/
theorem c5_counterexample :
    (let s := androidDefaultState
     androidGetSystemColorScheme ⟨NightMode.yes⟩ = "dark" ∧
     (androidGetColorScheme s).1 = "light" ∧
     (androidGetColorScheme s).1 ≠ androidGetSystemColorScheme ⟨NightMode.yes⟩ ∧
     (androidGetColorScheme s).2 = s) := by decide

/-- Claim C5, amended.  Only the iOS `getColorScheme` re-derives the scheme
from the live trait environment, returns the freshly read value and updates
the cache; the Android `getColorScheme` returns the cached scheme and
changes nothing (its cache is refreshed only by configuration-change
callbacks). -/
theorem c5_amended (si : IOSState) (t : IOSTraitEnvironment)
    (sa : AndroidState) :
    (iosGetColorScheme si t).1 = iosGetSystemColorScheme t ∧
    (iosGetColorScheme si t).2.currentColorScheme = iosGetSystemColorScheme t ∧
    androidGetColorScheme sa = (sa.currentColorScheme, sa) :=
  ⟨rfl, rfl, rfl⟩

/-- Claim C6, confirmed.  On a fresh state, supplying only
`navigationBarLeft = L` and `navigationBarRight = R` yields
`navigationBarLeft = L`, `navigationBarRight = R`, `navigationBar = L` (the
left sibling wins the bottom bar's cascade when both siblings are present),
and leaves `cutout` (as well as `content` and `statusBar`) unset: the cutout
never inherits from the navigation bar. -/
theorem c6_cascade_priority {α : Type} (L R : α) :
    storeColors (emptySlots α) none none none (some L) (some R) none =
      ⟨none, none, some L, some L, some R, none⟩ := rfl

/-- Claim C7, confirmed.  On a fresh state, supplying only the content color
`C` fills all six slots with `C`. -/
theorem c7_cascade_completeness {α : Type} (C : α) :
    storeColors (emptySlots α) (some C) none none none none none =
      allSlots C := rfl

/-- Claim C8, confirmed.  Resolving any color state with an empty set of
incoming colors — which is exactly what a call supplying only non-color
fields hands to `parseAndStoreColors` — returns the state unchanged. -/
theorem c8_resolve_idempotent {α : Type} (s : ColorSlots α) :
    storeColors s none none none none none none = s :=
  storeColors_all_none s

/-- Claim C9, confirmed.  For both the Android configuration-change handler
and the iOS app-became-active handler: a `colorSchemeChanged` event is
emitted iff the freshly read scheme differs from the cache, an emission
updates the cache, and a second consecutive signal reporting the same scheme
emits nothing. -/
theorem c9_theme_change_dedup (s : AndroidState) (cfg : AndroidConfiguration)
    (si : IOSState) (t : IOSTraitEnvironment) :
    dedupOk s.currentColorScheme (androidGetSystemColorScheme cfg)
      (androidHandleOnConfigurationChanged s cfg).1.currentColorScheme
      (androidHandleOnConfigurationChanged s cfg).2
      (androidHandleOnConfigurationChanged
        (androidHandleOnConfigurationChanged s cfg).1 cfg).2 ∧
    dedupOk si.currentColorScheme (iosGetSystemColorScheme t)
      (iosHandleAppBecameActive si t).1.currentColorScheme
      (iosHandleAppBecameActive si t).2
      (iosHandleAppBecameActive (iosHandleAppBecameActive si t).1 t).2 := by
  constructor
  · by_cases h : androidGetSystemColorScheme cfg = s.currentColorScheme <;>
      simp [dedupOk, androidHandleOnConfigurationChanged, h]
  · by_cases h : iosGetSystemColorScheme t = si.currentColorScheme <;>
      simp [dedupOk, iosHandleAppBecameActive, h]

/-- Claim C9, witness at a concrete state and signal. -/
theorem c9_theme_change_dedup_witness :
    dedupOk androidDefaultState.currentColorScheme
      (androidGetSystemColorScheme ⟨NightMode.yes⟩)
      (androidHandleOnConfigurationChanged androidDefaultState
        ⟨NightMode.yes⟩).1.currentColorScheme
      (androidHandleOnConfigurationChanged androidDefaultState
        ⟨NightMode.yes⟩).2
      (androidHandleOnConfigurationChanged
        (androidHandleOnConfigurationChanged androidDefaultState
          ⟨NightMode.yes⟩).1 ⟨NightMode.yes⟩).2 ∧
    dedupOk iosDefaultState.currentColorScheme
      (iosGetSystemColorScheme ⟨some UIUserInterfaceStyle.dark, none⟩)
      (iosHandleAppBecameActive iosDefaultState
        ⟨some UIUserInterfaceStyle.dark, none⟩).1.currentColorScheme
      (iosHandleAppBecameActive iosDefaultState
        ⟨some UIUserInterfaceStyle.dark, none⟩).2
      (iosHandleAppBecameActive
        (iosHandleAppBecameActive iosDefaultState
          ⟨some UIUserInterfaceStyle.dark, none⟩).1
        ⟨some UIUserInterfaceStyle.dark, none⟩).2 :=
  c9_theme_change_dedup androidDefaultState ⟨NightMode.yes⟩ iosDefaultState
    ⟨some UIUserInterfaceStyle.dark, none⟩

/-- Claim C10, confirmed.  Each of the six slots of a store-phase call ends
up either unchanged or set to one of the call's parsed inputs, and a slot
holding a value never returns to unset. -/
theorem c10_monotone_definedness {α : Type} (s : ColorSlots α)
    (p1 p2 p3 p4 p5 p6 : Option α) :
    slotsMono s (storeColors s p1 p2 p3 p4 p5 p6)
      [p1, p2, p3, p4, p5, p6] := by
  have m1 : p1 ∈ [p1, p2, p3, p4, p5, p6] := by simp
  have m2 : p2 ∈ [p1, p2, p3, p4, p5, p6] := by simp
  have m3 : p3 ∈ [p1, p2, p3, p4, p5, p6] := by simp
  have m4 : p4 ∈ [p1, p2, p3, p4, p5, p6] := by simp
  have m5 : p5 ∈ [p1, p2, p3, p4, p5, p6] := by simp
  have m6 : p6 ∈ [p1, p2, p3, p4, p5, p6] := by simp
  refine ⟨?_, ?_, ?_, ?_, ?_, ?_⟩
  · exact slotMono_step p1 m1 (slotMono_refl s.content _)
  · exact slotMono_step p2 m2 (slotMono_step p1 m1
      (slotMono_refl s.statusBar _))
  · exact slotMono_step p3 m3 (slotMono_step p4 m4 (slotMono_step p5 m5
      (slotMono_step p1 m1 (slotMono_refl s.navigationBar _))))
  · exact slotMono_step p4 m4 (slotMono_step p5 m5 (slotMono_step p3 m3
      (slotMono_step p1 m1 (slotMono_refl s.navigationBarLeft _))))
  · exact slotMono_step p5 m5 (slotMono_step p4 m4 (slotMono_step p3 m3
      (slotMono_step p1 m1 (slotMono_refl s.navigationBarRight _))))
  · exact slotMono_step p6 m6 (slotMono_step p2 m2 (slotMono_step p1 m1
      (slotMono_refl s.cutout _)))

/-- Claim C10, witness at a concrete state and input. -/
theorem c10_monotone_definedness_witness :
    slotsMono (allSlots (⟨0, 0, 0, 255⟩ : UIColor))
      (storeColors (allSlots ⟨0, 0, 0, 255⟩) (some ⟨255, 255, 255, 255⟩)
        none none none none none)
      [some ⟨255, 255, 255, 255⟩, none, none, none, none, none] :=
  c10_monotone_definedness (allSlots (⟨0, 0, 0, 255⟩ : UIColor))
    (some (⟨255, 255, 255, 255⟩ : UIColor)) none none none none none

end ThemeSupport
